import Mathlib

/-!
Verification development for the eco-friendly dropshipping app
(`src/app.py`): a shallow embedding of the OAuth2 token lifecycle
(`get_access_token`), the marketplace search client
(`search_eco_products`), and the two route handlers the claims touch
(`callback`, `products`).

Modeling conventions:
* Timestamps are integers (`Int`).  The Python code calls `time.time()`
  (a float); every arithmetic operation performed on it here is an
  integer addition/subtraction/comparison, which is order- and
  value-faithful on the integer-valued instants we quantify over.  Each
  modeled request takes a single `now` parameter.
* JSON scalar values appearing in token-endpoint response fields are
  modeled by `JsonVal` (null, integer, string); this is the domain the
  claims exercise.  A whole response body is a `Body`: not-JSON at all,
  valid JSON that is not an object, or an object with the named fields.
* `requests` semantics (version ≥ 2.27): `response.json()` on a
  non-JSON body raises `requests.exceptions.JSONDecodeError`, which is a
  subclass of both `requests.exceptions.RequestException` and
  `ValueError`, so it is caught by both `except RequestException` and
  `except ValueError` clauses in the source.
* Python semantics embedded explicitly: truthiness (`not x`),
  `dict.get`, the `in` membership test on dicts, `str()` rendering in
  f-strings, and the exceptions `AttributeError` (attribute access on a
  value without it, e.g. `.get` on a non-dict), `TypeError`
  (`float + None`, `float + str`), `ValueError` (`int("abc")`).
* The network is modeled by passing the outcome of the single HTTP call
  a code path may make (`HttpOutcome` / `SearchOutcome`) as an explicit
  parameter; each result records whether that call was actually issued.
-/

/-- JSON scalar values that can appear in a token-endpoint response
field.  Modeled domain: null, integers, strings (the values the claims
exercise; booleans, floats and nested containers are outside the
modeled domain). -/
inductive JsonVal where
  | jnull : JsonVal
  | jnum  : Int → JsonVal
  | jstr  : String → JsonVal
deriving DecidableEq, Repr

/-- Python truthiness (`bool(x)`) on the modeled values:
`None`, `0` and `""` are falsy, everything else truthy. -/
def truthy : JsonVal → Bool
  | .jnull => false
  | .jnum n => n ≠ 0
  | .jstr s => s ≠ ""

/-- Python `str(x)` as used when a value is interpolated into an
f-string. -/
def pyStr : JsonVal → String
  | .jnull => "None"
  | .jnum n => toString n
  | .jstr s => s

/-- `d.get(key)` with the default `None`: an absent key yields
Python `None` (`jnull`). -/
def pyGet : Option JsonVal → JsonVal
  | none => .jnull
  | some v => v

/-- The Python value a function returns, as seen by its caller:
`none` is Python `None`.  Returning a stored `jnull` is
indistinguishable from `return None`, hence the collapse. -/
def retOf : JsonVal → Option JsonVal
  | .jnull => none
  | .jnum n => some (.jnum n)
  | .jstr s => some (.jstr s)

/-- The fields of a JSON-object body returned by the token endpoint
(`none` = key absent from the object).  `message` only ever appears in
error bodies but is carried uniformly. -/
structure TokenData where
  access_token : Option JsonVal := none
  refresh_token : Option JsonVal := none
  expires_in : Option JsonVal := none
  message : Option JsonVal := none
deriving DecidableEq, Repr

/-- A token-endpoint HTTP response body. -/
inductive Body where
  /-- The body does not parse as JSON: `response.json()` raises
  `requests.exceptions.JSONDecodeError` (⊆ `RequestException`,
  ⊆ `ValueError`). -/
  | notJson : Body
  /-- The body parses as JSON but is not a JSON object (a string,
  array, number, boolean or null). -/
  | nonObject : Body
  /-- The body is a JSON object with the given fields. -/
  | object : TokenData → Body
deriving DecidableEq, Repr

/-- Outcome of the single `requests.post` to the token endpoint. -/
inductive HttpOutcome where
  /-- `requests.post` itself raises (timeout, DNS, connection reset):
  a `RequestException` whose `.response` is `None`; `str(e)` is the
  carried message. -/
  | transportError : String → HttpOutcome
  /-- Non-2xx status: `raise_for_status()` raises `HTTPError` carrying
  the response; `str(e)` is the generic description, and the response
  body is available for inspection by a handler. -/
  | httpError : Nat → String → Body → HttpOutcome
  /-- 2xx status with the given body. -/
  | success : Body → HttpOutcome
deriving DecidableEq, Repr

/-- Python exceptions that can escape the modeled code paths. -/
inductive PyExn where
  | attributeError : PyExn
  | typeError : PyExn
  | valueError : PyExn
deriving DecidableEq, Repr

/-- The per-user Flask session.  The three auth keys are modeled
individually (`none` = key absent; a present key holds a Python value).
`expires_at` is only ever written as `now + expires_in - 60` with an
integer `expires_in`, so a present value is numeric.  `others` models
every unrelated session key (e.g. `cart_items`). -/
structure Session where
  access_token : Option JsonVal := none
  refresh_token : Option JsonVal := none
  expires_at : Option Int := none
  others : List (String × String) := []
deriving DecidableEq, Repr

/-- The three `session.pop(..., None)` calls of the failure paths
(src/app.py lines 76-78 and 91-93). -/
def clearAuth (s : Session) : Session :=
  { s with access_token := none, refresh_token := none, expires_at := none }

/-- The flash issued on every refresh failure (src/app.py lines 79, 94). -/
def sessionExpiredFlash : String × String :=
  ("Your session has expired. Please log in again.", "warning")

/-- Everything observable about one `get_access_token()` call:
the Python return value (`none` = `None`), the session afterwards,
the flashes issued, whether the HTTP POST was issued, and the
exception propagated to the caller, if any (in which case `retval`
is meaningless and kept `none`). -/
structure TokenResult where
  retval : Option JsonVal := none
  session : Session
  flashes : List (String × String) := []
  networkCall : Bool := false
  raised : Option PyExn := none
deriving DecidableEq, Repr

/-- The refresh arm of `get_access_token` (src/app.py lines 52-97),
reached when the fast path did not hit.  `rt`-handling note: line 83
reads `token_data.get('refresh_token', session['refresh_token'])`, so a
present key wins even when its value is null, and an absent key keeps
the session's current value. -/
def refreshPath (now : Int) (s : Session) (net : HttpOutcome) : TokenResult :=
  match s.refresh_token with
  | none => { session := s }
  | some rt =>
    match net with
    | .transportError _ =>
        { session := clearAuth s, flashes := [sessionExpiredFlash], networkCall := true }
    | .httpError _ _ _ =>
        { session := clearAuth s, flashes := [sessionExpiredFlash], networkCall := true }
    | .success body =>
      match body with
      | .notJson =>
          -- response.json() raises JSONDecodeError ⊆ RequestException: caught.
          { session := clearAuth s, flashes := [sessionExpiredFlash], networkCall := true }
      | .nonObject =>
          -- token_data.get(...) on a non-dict raises AttributeError,
          -- which `except RequestException` does not catch: it propagates
          -- before any session mutation.
          { session := s, networkCall := true, raised := some .attributeError }
      | .object d =>
          let access_token := pyGet d.access_token
          let expires_in := pyGet d.expires_in
          if !truthy access_token || !truthy expires_in then
            { session := clearAuth s, flashes := [sessionExpiredFlash], networkCall := true }
          else
            let newRt : JsonVal :=
              match d.refresh_token with
              | some v => v
              | none => rt
            match expires_in with
            | .jnum e =>
                { retval := retOf access_token,
                  session := { s with access_token := some access_token,
                                      refresh_token := some newRt,
                                      expires_at := some (now + e - 60) },
                  networkCall := true }
            | _ =>
                -- line 84: `time.time() + expires_in - 60` with a truthy
                -- non-numeric expires_in raises TypeError AFTER lines
                -- 82-83 already stored access_token and refresh_token.
                { session := { s with access_token := some access_token,
                                      refresh_token := some newRt },
                  networkCall := true, raised := some .typeError }

/-- `get_access_token()` (src/app.py lines 32-97).  The fast path
(lines 48-50) returns the cached token when `access_token` and
`expires_at` are both present and `now < expires_at`; otherwise the
refresh arm runs. -/
def get_access_token (now : Int) (s : Session) (net : HttpOutcome) : TokenResult :=
  match s.access_token, s.expires_at with
  | some tok, some exp =>
      if now < exp then { retval := retOf tok, session := s }
      else refreshPath now s net
  | some _, none => refreshPath now s net
  | none, _ => refreshPath now s net

/-- The fast-path guard of lines 48-49, as a standalone predicate. -/
def fastPathHit (now : Int) (s : Session) : Bool :=
  match s.access_token, s.expires_at with
  | some _, some exp => now < exp
  | _, _ => false

/-- The refresh outcomes the spec enumerates as failures: transport
error, non-2xx response, or a 2xx JSON object missing `access_token`
or `expires_in`. -/
def specRefreshFailure : HttpOutcome → Bool
  | .transportError _ => true
  | .httpError _ _ _ => true
  | .success (.object d) => d.access_token.isNone || d.expires_in.isNone
  | .success _ => false

/-- Characters Python's default `str.strip()` removes, restricted to
the ASCII range (space, tab, LF, VT, FF, CR); the claims only exercise
these. -/
def isPyWhitespace (c : Char) : Bool :=
  c.val = 32 || c.val = 9 || c.val = 10 || c.val = 11 || c.val = 12 || c.val = 13

/-- Python `s.strip()` on the modeled whitespace set. -/
def pyStrip (s : String) : String :=
  .mk (((s.toList.dropWhile isPyWhitespace).reverse.dropWhile isPyWhitespace).reverse)

/-- The GET request `search_eco_products` issues (src/app.py lines
126-137): bearer token in the Authorization header plus the literal
query parameters. -/
structure SearchCall where
  token : JsonVal
  site_id : String
  q : String
  sort : String
  offset : Int
  limit : Int
deriving DecidableEq, Repr

/-- Success body of the search endpoint as the products view consumes
it: the `results` list (items modeled opaquely by identifier) and
`paging.total`. -/
structure SearchBody where
  results : List String := []
  total : Int := 0
deriving DecidableEq, Repr

/-- Outcome of the single `requests.get` a search may issue. -/
inductive SearchOutcome where
  | transportError : String → SearchOutcome
  | httpError : String → SearchOutcome
  | success : SearchBody → SearchOutcome
deriving DecidableEq, Repr

/-- Result of `search_eco_products`: the `(result, error)` pair and the
GET actually issued (`none` = zero network calls). -/
structure SearchRet where
  result : Option SearchBody := none
  error : Option String := none
  call : Option SearchCall := none
deriving DecidableEq, Repr

/-- `search_eco_products` (src/app.py lines 100-142).  The access token
is carried as the raw Python value the caller passed (the code
interpolates it into the Authorization header unchecked). -/
def search_eco_products (query : String) (access_token : JsonVal)
    (site_id : String := "MLA") (sort : String := "relevance")
    (offset : Int := 0) (limit : Int := 10) (net : SearchOutcome) : SearchRet :=
  if query = "" || pyStrip query = "" then
    { error := some "Search query cannot be empty." }
  else
    let call : SearchCall :=
      { token := access_token, site_id := site_id, q := query,
        sort := sort, offset := offset, limit := limit }
    match net with
    | .success body => { result := some body, call := some call }
    | .transportError m => { error := some m, call := some call }
    | .httpError m => { error := some m, call := some call }

/-- Python `int(s)` on a string: optional surrounding whitespace, one
optional sign, then a nonempty run of ASCII digits; anything else
raises `ValueError` (`none`).  (Underscore separators and non-ASCII
digits are outside the modeled domain.) -/
def pyIntOfString (s : String) : Option Int :=
  let core := (s.toList.dropWhile isPyWhitespace).reverse.dropWhile isPyWhitespace |>.reverse
  let signed : Bool × List Char :=
    match core with
    | '-' :: rest => (true, rest)
    | '+' :: rest => (false, rest)
    | rest => (false, rest)
  let digits := signed.2
  if digits ≠ [] && digits.all (·.isDigit) then
    let mag : Nat := digits.foldl (fun acc c => acc * 10 + (c.toNat - 48)) 0
    some (if signed.1 then -(mag : Int) else (mag : Int))
  else
    none

/-- The query-string arguments of a `/products` request (`none` = the
URL parameter is absent; Flask's `request.args.get` hands the handler
the raw string otherwise). -/
structure ProductsArgs where
  q : Option String := none
  sort : Option String := none
  page : Option String := none
deriving DecidableEq, Repr

/-- Everything observable about one `/products` request. -/
structure ProductsResult where
  redirectTo : Option String := none
  flashes : List (String × String) := []
  searchCall : Option SearchCall := none
  productList : List String := []
  totalPages : Int := 0
  raised : Option PyExn := none
deriving DecidableEq, Repr

/-- The tail of the `/products` view once `page` is an integer
(src/app.py lines 184-199): fixed `limit = 10`,
`offset = (page - 1) * limit`, the search call, and either the error
flash with an empty product list or the extracted results with
`total_pages = (total + limit - 1) // limit` (Python floor
division). -/
def products_search (token : JsonVal) (query sort : String) (page : Int)
    (net : SearchOutcome) : ProductsResult :=
  let limit : Int := 10
  let offset := (page - 1) * limit
  let sr := search_eco_products query token "MLA" sort offset limit net
  match sr.error with
  | some e =>
      { flashes := [("There was an error searching for products: " ++ e, "danger")],
        searchCall := sr.call }
  | none =>
      let body := sr.result.getD {}
      { searchCall := sr.call, productList := body.results,
        totalPages := Int.fdiv (body.total + limit - 1) limit }

/-- The `/products` view (src/app.py lines 160-199), parameterized by
the Python value `get_access_token()` returned (`none` = `None`) and
the search call's network outcome.  `int(request.args.get("page", 1))`
(line 183) parses the raw parameter string and raises `ValueError` on
non-numeric input; an absent parameter defaults to the integer 1. -/
def products_view (tokenRet : Option JsonVal) (args : ProductsArgs)
    (net : SearchOutcome) : ProductsResult :=
  let tokenTruthy :=
    match tokenRet with
    | none => false
    | some v => truthy v
  if !tokenTruthy then
    { redirectTo := some "login",
      flashes := [("You need to be logged in to view products.", "warning")] }
  else
    let token := pyGet tokenRet
    let query := args.q.getD "eco-friendly"
    let sort := args.sort.getD "relevance"
    match args.page with
    | some ps =>
      match pyIntOfString ps with
      | none => { raised := some .valueError }
      | some page => products_search token query sort page net
    | none => products_search token query sort 1 net

/-- Everything observable about one `/callback` request. -/
structure CallbackResult where
  redirectTo : Option String := none
  flashes : List (String × String) := []
  session : Session
  networkCall : Bool := false
  raised : Option PyExn := none
deriving DecidableEq, Repr

/-- The error string the `except` arm of `/callback` surfaces
(src/app.py lines 281-288): `str(e)` unless the error response body is
parseable JSON whose `message` key is present, in which case that
value; non-JSON bodies raise `ValueError` inside the inner `try`,
which is caught and ignored. -/
def callbackErrorValue (generic : String) (body : Body) : JsonVal :=
  match body with
  | .notJson => .jstr generic
  | .nonObject => .jstr generic  -- unreachable in `callbackRoute`, see there
  | .object d =>
    match d.message with
    | some v => v
    | none => .jstr generic

/-- The `/callback` route (src/app.py lines 229-290), parameterized by
the `code` URL argument and the token-endpoint outcome.  On a 2xx
object body the presence checks of line 270 use `in`; a present key
with a null value passes them.  Line 276 (`time.time() + expires_in -
60`) raises `TypeError` on a non-numeric `expires_in` AFTER lines
274-275 already stored `access_token` and `refresh_token`; the Flask
host persists the partially mutated session while serving the
resulting 500 response.  A 2xx body that is valid JSON but not an
object makes the `in` test of line 270 raise `TypeError` before any
mutation (for the scalar JSON values in the modeled domain; string and
array bodies would instead take the malformed-response branch, which
also leaves the session unchanged).  On an HTTP-error body that is
JSON but not an object, `error_data.get` raises `AttributeError`,
which `except ValueError` does not catch. -/
def callbackRoute (now : Int) (s : Session) (code : Option String)
    (net : HttpOutcome) : CallbackResult :=
  match code with
  | none =>
      { redirectTo := some "home", session := s,
        flashes := [("Authorization code not received.", "danger")] }
  | some _ =>
    match net with
    | .transportError msg =>
        { redirectTo := some "home", session := s, networkCall := true,
          flashes := [("Error during token exchange: " ++ msg, "danger")] }
    | .httpError _ generic body =>
      match body with
      | .nonObject =>
          { session := s, networkCall := true, raised := some .attributeError }
      | _ =>
          { redirectTo := some "home", session := s, networkCall := true,
            flashes := [("Error during token exchange: "
                          ++ pyStr (callbackErrorValue generic body), "danger")] }
    | .success body =>
      match body with
      | .notJson =>
          -- response.json() raises JSONDecodeError ⊆ RequestException with
          -- e.response = None, so the generic str(e) is surfaced.
          { redirectTo := some "home", session := s, networkCall := true,
            flashes := [("Error during token exchange: "
                          ++ "Expecting value: line 1 column 1 (char 0)", "danger")] }
      | .nonObject =>
          { session := s, networkCall := true, raised := some .typeError }
      | .object d =>
        if d.access_token.isNone || d.expires_in.isNone then
          { redirectTo := some "home", session := s, networkCall := true,
            flashes := [("Error during token exchange: Malformed response from API.",
                         "danger")] }
        else
          let tok := pyGet d.access_token
          let rt := pyGet d.refresh_token
          match pyGet d.expires_in with
          | .jnum e =>
              { redirectTo := some "products", networkCall := true,
                flashes := [("Authentication successful!", "success")],
                session := { s with access_token := some tok,
                                    refresh_token := some rt,
                                    expires_at := some (now + e - 60) } }
          | _ =>
              { networkCall := true, raised := some .typeError,
                session := { s with access_token := some tok,
                                    refresh_token := some rt } }

/-- The pairing invariant of the spec's data model: `access_token` and
`expires_at` are both present or both absent. -/
def authInvariant (s : Session) : Bool :=
  s.access_token.isSome = s.expires_at.isSome

/-- Wherever `expires_in` is a truthy non-number: the refresh arm
raises (`AttributeError` on a non-object body, `TypeError` on the
line-84 arithmetic); everywhere else it completes normally. -/
def jsonIsNum : JsonVal → Bool
  | .jnum _ => true
  | .jnull => false
  | .jstr _ => false

/-- The token-endpoint outcomes on which the refresh arm of
`get_access_token` propagates an exception. -/
def refreshRaises : HttpOutcome → Bool
  | .success .nonObject => true
  | .success (.object d) =>
      truthy (pyGet d.access_token) && truthy (pyGet d.expires_in)
        && !jsonIsNum (pyGet d.expires_in)
  | _ => false

/-- The token-endpoint outcomes the refresh arm handles as failures
(clearing the auth keys and flashing): transport error, non-2xx
response, unparseable 2xx body, or a 2xx object whose `access_token`
or `expires_in` is absent or falsy.  A superset of
`specRefreshFailure`; its complement is the success path plus the
raising outcomes of `refreshRaises`. -/
def refreshFailurePath : HttpOutcome → Bool
  | .transportError _ => true
  | .httpError _ _ _ => true
  | .success .notJson => true
  | .success .nonObject => false
  | .success (.object d) =>
      !truthy (pyGet d.access_token) || !truthy (pyGet d.expires_in)

theorem get_access_token_not_fast (now : Int) (s : Session) (net : HttpOutcome)
    (h : fastPathHit now s = false) :
    get_access_token now s net = refreshPath now s net := by
  unfold get_access_token
  unfold fastPathHit at h
  cases hsa : s.access_token with
  | none => rfl
  | some tok =>
    cases hse : s.expires_at with
    | none => rfl
    | some exp =>
      rw [hsa, hse] at h
      simp only [decide_eq_false_iff_not] at h
      exact if_neg h

theorem get_access_token_fast (now : Int) (s : Session) (net : HttpOutcome)
    (tok : JsonVal) (exp : Int)
    (ha : s.access_token = some tok) (he : s.expires_at = some exp)
    (hlt : now < exp) :
    get_access_token now s net = { retval := retOf tok, session := s } := by
  unfold get_access_token
  rw [ha, he]
  exact if_pos hlt

theorem refreshPath_failure (now : Int) (s : Session) (net : HttpOutcome)
    (rt : JsonVal) (hrt : s.refresh_token = some rt)
    (hfail : specRefreshFailure net = true) :
    refreshPath now s net =
      { session := clearAuth s, flashes := [sessionExpiredFlash],
        networkCall := true } := by
  unfold refreshPath
  rw [hrt]
  cases net with
  | transportError m => rfl
  | httpError st g b => rfl
  | success body =>
    cases body with
    | notJson => rfl
    | nonObject => exact absurd hfail (by simp [specRefreshFailure])
    | object d =>
      simp only [specRefreshFailure, Bool.or_eq_true, Option.isNone_iff_eq_none] at hfail
      rcases hfail with h1 | h1 <;>
        simp [h1, pyGet, truthy]

theorem refreshPath_handled_failure (now : Int) (s : Session) (net : HttpOutcome)
    (rt : JsonVal) (hrt : s.refresh_token = some rt)
    (hfail : refreshFailurePath net = true) :
    refreshPath now s net =
      { session := clearAuth s, flashes := [sessionExpiredFlash],
        networkCall := true } := by
  unfold refreshPath
  rw [hrt]
  cases net with
  | transportError m => rfl
  | httpError st g b => rfl
  | success body =>
    cases body with
    | notJson => rfl
    | nonObject => exact absurd hfail (by simp [refreshFailurePath])
    | object d =>
      simp only [refreshFailurePath] at hfail
      dsimp only
      rw [hfail]
      simp

theorem refreshPath_networkCall (now : Int) (s : Session) (net : HttpOutcome)
    (rt : JsonVal) (hrt : s.refresh_token = some rt) :
    (refreshPath now s net).networkCall = true := by
  unfold refreshPath
  rw [hrt]
  cases net with
  | transportError m => rfl
  | httpError st g b => rfl
  | success body =>
    cases body with
    | notJson => rfl
    | nonObject => rfl
    | object d =>
      dsimp only
      split
      · rfl
      · split <;> rfl

/-- C1: for every session containing a `refresh_token` whose access
token is absent or stale (the fast-path guard fails), when the refresh
attempt fails for any of the spec's reasons (transport error, non-2xx
response, or a 2xx JSON object missing `access_token` or `expires_in`),
afterwards the three auth keys are all absent, every other session key
is unchanged, and `get_access_token` returns `None` without raising. -/
theorem C1_refresh_failure_clears_exactly_auth_keys
    (now : Int) (s : Session) (net : HttpOutcome) (rt : JsonVal)
    (hrt : s.refresh_token = some rt)
    (hmiss : fastPathHit now s = false)
    (hfail : specRefreshFailure net = true) :
    (get_access_token now s net).session.access_token = none ∧
    (get_access_token now s net).session.refresh_token = none ∧
    (get_access_token now s net).session.expires_at = none ∧
    (get_access_token now s net).session.others = s.others ∧
    (get_access_token now s net).retval = none ∧
    (get_access_token now s net).raised = none := by
  rw [get_access_token_not_fast now s net hmiss,
      refreshPath_failure now s net rt hrt hfail]
  exact ⟨rfl, rfl, rfl, rfl, rfl, rfl⟩

theorem C1_witness :
    (get_access_token 100
        { access_token := some (.jstr "old"), refresh_token := some (.jstr "R"),
          expires_at := some 50, others := [("cart_items", "two shirts")] }
        (.transportError "connection reset")).session.access_token = none ∧
    (get_access_token 100
        { access_token := some (.jstr "old"), refresh_token := some (.jstr "R"),
          expires_at := some 50, others := [("cart_items", "two shirts")] }
        (.transportError "connection reset")).session.refresh_token = none ∧
    (get_access_token 100
        { access_token := some (.jstr "old"), refresh_token := some (.jstr "R"),
          expires_at := some 50, others := [("cart_items", "two shirts")] }
        (.transportError "connection reset")).session.expires_at = none ∧
    (get_access_token 100
        { access_token := some (.jstr "old"), refresh_token := some (.jstr "R"),
          expires_at := some 50, others := [("cart_items", "two shirts")] }
        (.transportError "connection reset")).session.others
      = ({ access_token := some (.jstr "old"), refresh_token := some (.jstr "R"),
           expires_at := some 50, others := [("cart_items", "two shirts")] } : Session).others ∧
    (get_access_token 100
        { access_token := some (.jstr "old"), refresh_token := some (.jstr "R"),
          expires_at := some 50, others := [("cart_items", "two shirts")] }
        (.transportError "connection reset")).retval = none ∧
    (get_access_token 100
        { access_token := some (.jstr "old"), refresh_token := some (.jstr "R"),
          expires_at := some 50, others := [("cart_items", "two shirts")] }
        (.transportError "connection reset")).raised = none :=
  C1_refresh_failure_clears_exactly_auth_keys 100 _ _ (.jstr "R")
    rfl (by decide) rfl

/-- C2: for every session in which `access_token` and `expires_at`
are both present and the current time is strictly below `expires_at`,
`get_access_token` returns the stored token immediately, issues no
network call, mutates nothing, flashes nothing and raises nothing —
whatever the refresh token and whatever the network would have
answered. -/
theorem C2_fast_path_side_effect_free
    (now : Int) (s : Session) (net : HttpOutcome)
    (tok : JsonVal) (exp : Int)
    (ha : s.access_token = some tok) (he : s.expires_at = some exp)
    (hfresh : now < exp) :
    get_access_token now s net =
      { retval := retOf tok, session := s, flashes := [],
        networkCall := false, raised := none } :=
  get_access_token_fast now s net tok exp ha he hfresh

theorem C2_witness :
    get_access_token 100
        { access_token := some (.jstr "tok"), refresh_token := some (.jstr "R"),
          expires_at := some 200, others := [("cart_items", "two shirts")] }
        (.transportError "would not even be issued") =
      { retval := retOf (.jstr "tok"),
        session := { access_token := some (.jstr "tok"),
                     refresh_token := some (.jstr "R"),
                     expires_at := some 200,
                     others := [("cart_items", "two shirts")] },
        flashes := [], networkCall := false, raised := none } :=
  C2_fast_path_side_effect_free 100 _ _ (.jstr "tok") 200 rfl rfl (by decide)

theorem C3_counterexample :
    (get_access_token 100
        { access_token := some (.jstr "old"), refresh_token := some (.jstr "R"),
          expires_at := some 50, others := [("cart_items", "two shirts")] }
        (.success (.object { access_token := some (.jstr "T"),
                             expires_in := some (.jnum 60) }))).retval
        = some (.jstr "T") ∧
    (get_access_token 100
        { access_token := some (.jstr "old"), refresh_token := some (.jstr "R"),
          expires_at := some 50, others := [("cart_items", "two shirts")] }
        (.success (.object { access_token := some (.jstr "T"),
                             expires_in := some (.jnum 60) }))).session.expires_at
        = some 100 ∧
    ¬ (100 : Int) < 100 := by
  refine ⟨?_, ?_, by decide⟩ <;> rfl

/-- C3 (amended): for every session with `expires_at` in the past and a
`refresh_token` present, when the refresh call succeeds (2xx object
body whose `access_token` is truthy and whose `expires_in` is a nonzero
integer), `get_access_token` overwrites exactly the three auth keys,
stores `expires_at = now + expires_in - 60` — which exceeds the current
time exactly when `expires_in > 60` — leaves every unrelated session
key unchanged, and returns the new access token. -/
theorem C3_refresh_success_overwrites_auth_keys
    (now exp e : Int) (s : Session) (d : TokenData) (rt tok : JsonVal)
    (hrt : s.refresh_token = some rt)
    (hexp : s.expires_at = some exp) (hpast : exp ≤ now)
    (ha : d.access_token = some tok) (hat : truthy tok = true)
    (he : d.expires_in = some (.jnum e)) (het : e ≠ 0) :
    (get_access_token now s (.success (.object d))).session.access_token
        = some tok ∧
    (get_access_token now s (.success (.object d))).session.refresh_token
        = some (d.refresh_token.getD rt) ∧
    (get_access_token now s (.success (.object d))).session.expires_at
        = some (now + e - 60) ∧
    (get_access_token now s (.success (.object d))).session.others = s.others ∧
    (get_access_token now s (.success (.object d))).retval = retOf tok ∧
    (get_access_token now s (.success (.object d))).raised = none ∧
    (60 < e → now < now + e - 60) := by
  have hmiss : fastPathHit now s = false := by
    unfold fastPathHit
    cases hsa : s.access_token with
    | none => rfl
    | some t => rw [hexp]; simpa using not_lt.mpr hpast
  rw [get_access_token_not_fast now s _ hmiss]
  unfold refreshPath
  rw [hrt]
  dsimp only
  rw [ha, he]
  have hta : truthy (pyGet (some tok)) = true := hat
  have hte : truthy (pyGet (some (JsonVal.jnum e))) = true := by
    simpa [pyGet, truthy] using het
  rw [hta, hte]
  dsimp only [pyGet]
  refine ⟨rfl, ?_, rfl, rfl, rfl, rfl, fun h => by omega⟩
  cases hdr : d.refresh_token <;> rfl

theorem C3_witness :
    (get_access_token 100
        { refresh_token := some (.jstr "R"), expires_at := some 50,
          others := [("cart_items", "two shirts")] }
        (.success (.object { access_token := some (.jstr "T"),
                             expires_in := some (.jnum 3600) }))).session.access_token
        = some (.jstr "T") ∧
    (get_access_token 100
        { refresh_token := some (.jstr "R"), expires_at := some 50,
          others := [("cart_items", "two shirts")] }
        (.success (.object { access_token := some (.jstr "T"),
                             expires_in := some (.jnum 3600) }))).session.refresh_token
        = some (({ access_token := some (.jstr "T"),
                   expires_in := some (.jnum 3600) } : TokenData).refresh_token.getD
                 (.jstr "R")) ∧
    (get_access_token 100
        { refresh_token := some (.jstr "R"), expires_at := some 50,
          others := [("cart_items", "two shirts")] }
        (.success (.object { access_token := some (.jstr "T"),
                             expires_in := some (.jnum 3600) }))).session.expires_at
        = some (100 + 3600 - 60) ∧
    (get_access_token 100
        { refresh_token := some (.jstr "R"), expires_at := some 50,
          others := [("cart_items", "two shirts")] }
        (.success (.object { access_token := some (.jstr "T"),
                             expires_in := some (.jnum 3600) }))).session.others
        = ({ refresh_token := some (.jstr "R"), expires_at := some 50,
             others := [("cart_items", "two shirts")] } : Session).others ∧
    (get_access_token 100
        { refresh_token := some (.jstr "R"), expires_at := some 50,
          others := [("cart_items", "two shirts")] }
        (.success (.object { access_token := some (.jstr "T"),
                             expires_in := some (.jnum 3600) }))).retval
        = retOf (.jstr "T") ∧
    (get_access_token 100
        { refresh_token := some (.jstr "R"), expires_at := some 50,
          others := [("cart_items", "two shirts")] }
        (.success (.object { access_token := some (.jstr "T"),
                             expires_in := some (.jnum 3600) }))).raised = none ∧
    (60 < (3600 : Int) → (100 : Int) < 100 + 3600 - 60) :=
  C3_refresh_success_overwrites_auth_keys 100 50 3600 _ _ (.jstr "R") (.jstr "T")
    rfl rfl (by decide) rfl (by decide) rfl (by decide)

theorem C4_counterexample :
    (get_access_token 100 { refresh_token := some (.jstr "R") }
        (.httpError 400 "400 Client Error: Bad Request"
          (.object { message := some (.jstr "Invalid code") }))).networkCall = true ∧
    (get_access_token 100 { refresh_token := some (.jstr "R") }
        (.httpError 400 "400 Client Error: Bad Request"
          (.object { message := some (.jstr "Invalid code") }))).flashes
      = [("Your session has expired. Please log in again.", "warning")] ∧
    (∀ f ∈ (get_access_token 100 { refresh_token := some (.jstr "R") }
        (.httpError 400 "400 Client Error: Bad Request"
          (.object { message := some (.jstr "Invalid code") }))).flashes,
        f.1 ≠ "Invalid code") := by
  refine ⟨rfl, rfl, ?_⟩
  decide

/-- C4 (amended): on an HTTP failure of the authorization-code
exchange, the surfaced error string is the body's JSON `message` field
(rendered with Python `str`) when the body is a JSON object containing
one; when the body is an object without a `message` key, or is not
parseable JSON, or the failure is a transport error, it is the generic
HTTP description, and no parse exception is raised in any of those
cases; but when the error body is valid JSON and not an object, the
callback raises `AttributeError` (from `error_data.get` on a non-dict,
uncaught by `except ValueError`) and surfaces nothing.
`get_access_token`'s refresh path performs no message extraction at
all: every refresh failure it handles (transport error, non-2xx
response, unparseable 2xx body, or 2xx object with missing or falsy
`access_token`/`expires_in`) flashes the fixed session-expired
warning, whatever the response body said. -/
theorem C4_error_message_precedence
    (now : Int) (s : Session) (c : String) (status : Nat)
    (generic : String) (v : JsonVal) (d : TokenData) (net : HttpOutcome)
    (rt : JsonVal) :
    (d.message = some v →
      (callbackRoute now s (some c) (.httpError status generic (.object d))).flashes
        = [("Error during token exchange: " ++ pyStr v, "danger")]) ∧
    (d.message = none →
      (callbackRoute now s (some c) (.httpError status generic (.object d))).flashes
        = [("Error during token exchange: " ++ generic, "danger")]) ∧
    (callbackRoute now s (some c) (.httpError status generic (.object d))).raised
        = none ∧
    (callbackRoute now s (some c) (.httpError status generic .notJson)).flashes
        = [("Error during token exchange: " ++ generic, "danger")] ∧
    (callbackRoute now s (some c) (.httpError status generic .notJson)).raised
        = none ∧
    (callbackRoute now s (some c) (.httpError status generic .nonObject)).raised
        = some .attributeError ∧
    (callbackRoute now s (some c) (.httpError status generic .nonObject)).flashes
        = [] ∧
    (callbackRoute now s (some c) (.transportError generic)).flashes
        = [("Error during token exchange: " ++ generic, "danger")] ∧
    (s.refresh_token = some rt → fastPathHit now s = false →
      refreshFailurePath net = true →
      (get_access_token now s net).flashes = [sessionExpiredFlash]) := by
  refine ⟨?_, ?_, rfl, rfl, rfl, rfl, rfl, rfl, ?_⟩
  · intro hm
    simp [callbackRoute, callbackErrorValue, hm]
  · intro hm
    simp [callbackRoute, callbackErrorValue, hm, pyStr]
  · intro hrt hmiss hfail
    rw [get_access_token_not_fast now s net hmiss,
        refreshPath_handled_failure now s net rt hrt hfail]

theorem C4_witness :
    (callbackRoute 100 { refresh_token := some (.jstr "R") } (some "auth-code")
        (.httpError 400 "400 Client Error: Bad Request"
          (.object { message := some (.jstr "Invalid code") }))).flashes
      = [("Error during token exchange: " ++ pyStr (.jstr "Invalid code"), "danger")] ∧
    (callbackRoute 100 { refresh_token := some (.jstr "R") } (some "auth-code")
        (.httpError 400 "400 Client Error: Bad Request" .nonObject)).raised
      = some .attributeError ∧
    (get_access_token 100 { refresh_token := some (.jstr "R") }
        (.success .notJson)).flashes
      = [sessionExpiredFlash] := by
  have h := C4_error_message_precedence 100 { refresh_token := some (.jstr "R") }
    "auth-code" 400 "400 Client Error: Bad Request" (.jstr "Invalid code")
    { message := some (.jstr "Invalid code") }
    (.success .notJson) (.jstr "R")
  exact ⟨h.1 rfl, h.2.2.2.2.2.1,
         h.2.2.2.2.2.2.2.2 rfl (by decide) rfl⟩

/-- C5 (code-bug record): on the authenticated products view,
`page=3` does yield `offset = 20` and `limit = 10` as the literal
query parameters sent to search, and an absent `page` defaults to 1
(offset 0); but a non-numeric `page` is NOT coerced safely —
`int(request.args.get("page", 1))` raises `ValueError`, so the view
raises instead of answering. -/
theorem C5_page_handling :
    pyIntOfString "abc" = none ∧
    (products_view (some (.jstr "T")) { page := some "abc" }
        (.success {})).raised = some .valueError ∧
    (products_view (some (.jstr "T")) { page := some "3" }
        (.success {})).searchCall
      = some { token := .jstr "T", site_id := "MLA", q := "eco-friendly",
               sort := "relevance", offset := 20, limit := 10 } ∧
    (products_view (some (.jstr "T")) { page := some "3" }
        (.success {})).raised = none ∧
    (products_view (some (.jstr "T")) { }
        (.success {})).searchCall
      = some { token := .jstr "T", site_id := "MLA", q := "eco-friendly",
               sort := "relevance", offset := 0, limit := 10 } := by
  refine ⟨rfl, rfl, ?_, rfl, ?_⟩ <;> decide

theorem C6_counterexample :
    (get_access_token 100 { refresh_token := some (.jstr "R") }
        (.success .nonObject)).raised = some .attributeError ∧
    ¬ (get_access_token 100 { refresh_token := some (.jstr "R") }
        (.success .nonObject)).raised = none := by
  exact ⟨rfl, by decide⟩

/-- C6 (amended): `get_access_token` propagates an exception on
exactly one family of outcomes — the refresh arm runs (refresh token
present, fast path missed) and the 2xx body is either valid JSON that
is not an object (`AttributeError` from `.get` on a non-dict) or an
object whose `access_token` and `expires_in` are truthy with a
non-numeric `expires_in` (`TypeError` from `time.time() + expires_in`).
On every other session state and outcome — transport errors, non-2xx
responses, unparseable 2xx bodies, and objects with missing or falsy
fields — it returns `None` or the token with the specified session
mutation and raises nothing. -/
theorem C6_raise_characterization
    (now : Int) (s : Session) (net : HttpOutcome) :
    (get_access_token now s net).raised = none ↔
      ¬ (fastPathHit now s = false ∧ s.refresh_token.isSome = true ∧
          refreshRaises net = true) := by
  cases hfp : fastPathHit now s with
  | true =>
    unfold fastPathHit at hfp
    have : (get_access_token now s net).raised = none := by
      cases hsa : s.access_token with
      | none => rw [hsa] at hfp; exact absurd hfp (by simp)
      | some tok =>
        cases hse : s.expires_at with
        | none => rw [hsa, hse] at hfp; exact absurd hfp (by simp)
        | some exp =>
          rw [hsa, hse] at hfp
          simp only [decide_eq_true_eq] at hfp
          rw [get_access_token_fast now s net tok exp hsa hse hfp]
    simp [this]
  | false =>
    rw [get_access_token_not_fast now s net hfp]
    simp only [hfp, true_and]
    cases hrt : s.refresh_token with
    | none =>
      unfold refreshPath
      rw [hrt]
      simp
    | some rt =>
      simp only [Option.isSome_some, true_and]
      unfold refreshPath
      rw [hrt]
      cases net with
      | transportError m => simp [refreshRaises]
      | httpError a b c => simp [refreshRaises]
      | success body =>
        cases body with
        | notJson => simp [refreshRaises]
        | nonObject => simp [refreshRaises]
        | object d =>
          dsimp only
          cases hta : truthy (pyGet d.access_token) with
          | false => simp [refreshRaises, hta]
          | true =>
            cases hte : truthy (pyGet d.expires_in) with
            | false => simp [refreshRaises, hta, hte]
            | true =>
              simp only [hta, hte, Bool.not_true, Bool.or_self, Bool.false_eq_true,
                if_false, refreshRaises, Bool.true_and]
              cases hev : pyGet d.expires_in with
              | jnull => rw [hev] at hte; exact absurd hte (by simp [truthy])
              | jnum e => simp [jsonIsNum]
              | jstr str => simp [jsonIsNum]

/-- C7: for every query that is empty or made only of whitespace and
every access-token value, `search_eco_products` fails immediately with
exactly "Search query cannot be empty.", a null result, and no GET
issued — for any site, sort, offset, limit and whatever the network
would have answered. -/
theorem C7_blank_query_fails_without_network
    (q : String) (tok : JsonVal) (site sort : String)
    (offset limit : Int) (net : SearchOutcome)
    (hq : ∀ c ∈ q.toList, isPyWhitespace c = true) :
    search_eco_products q tok site sort offset limit net =
      { result := none, error := some "Search query cannot be empty.",
        call := none } := by
  have hstrip : pyStrip q = "" := by
    unfold pyStrip
    have h1 : q.toList.dropWhile isPyWhitespace = [] :=
      List.dropWhile_eq_nil_iff.mpr hq
    rw [h1]
    rfl
  unfold search_eco_products
  rw [hstrip]
  simp

theorem C7_witness :
    search_eco_products "   " (.jstr "any-token") "MLA" "relevance" 0 10
        (.success { results := ["should-not-be-reached"], total := 1 }) =
      { result := none, error := some "Search query cannot be empty.",
        call := none } :=
  C7_blank_query_fails_without_network "   " (.jstr "any-token") "MLA"
    "relevance" 0 10 _ (by decide)

theorem get_access_token_hit (now : Int) (s : Session) (net : HttpOutcome)
    (h : fastPathHit now s = true) :
    ∃ tok, get_access_token now s net = { retval := retOf tok, session := s } := by
  unfold fastPathHit at h
  cases hsa : s.access_token with
  | none => rw [hsa] at h; simp at h
  | some tok =>
    cases hse : s.expires_at with
    | none => rw [hsa, hse] at h; simp at h
    | some exp =>
      rw [hsa, hse] at h
      simp only [decide_eq_true_eq] at h
      exact ⟨tok, get_access_token_fast now s net tok exp hsa hse h⟩

theorem refreshPath_invariant (now : Int) (s : Session) (net : HttpOutcome)
    (hinv : authInvariant s = true) :
    (refreshPath now s net).raised = none →
    authInvariant (refreshPath now s net).session = true := by
  unfold refreshPath
  cases hrt : s.refresh_token with
  | none => intro _; exact hinv
  | some rt =>
    cases net with
    | transportError m => intro _; rfl
    | httpError a b body => intro _; rfl
    | success body =>
      cases body with
      | notJson => intro _; rfl
      | nonObject => intro h; simp at h
      | object d =>
        dsimp only
        split
        · intro _; rfl
        · split
          · intro _; rfl
          · intro h; simp at h

theorem C8_counterexample :
    authInvariant {} = true ∧
    (callbackRoute 100 {} (some "auth-code")
        (.success (.object { access_token := some (.jstr "T"),
                             expires_in := some .jnull }))).session.access_token
      = some (.jstr "T") ∧
    (callbackRoute 100 {} (some "auth-code")
        (.success (.object { access_token := some (.jstr "T"),
                             expires_in := some .jnull }))).session.expires_at
      = none ∧
    authInvariant (callbackRoute 100 {} (some "auth-code")
        (.success (.object { access_token := some (.jstr "T"),
                             expires_in := some .jnull }))).session = false := by
  exact ⟨rfl, rfl, rfl, rfl⟩

/-- C8 (amended): starting from any session satisfying the pairing
invariant (`access_token` and `expires_at` both present or both
absent), every execution of `get_access_token` and of the callback
exchange that completes without raising preserves the invariant.  The
executions that do raise a `TypeError` on a truthy non-numeric
`expires_in` have already stored `access_token` without `expires_at`
and can leave the invariant broken (see the counterexample). -/
theorem C8_invariant_preserved_without_raise
    (now : Int) (s : Session) (net : HttpOutcome) (code : Option String)
    (hinv : authInvariant s = true) :
    ((get_access_token now s net).raised = none →
      authInvariant (get_access_token now s net).session = true) ∧
    ((callbackRoute now s code net).raised = none →
      authInvariant (callbackRoute now s code net).session = true) := by
  constructor
  · cases hfp : fastPathHit now s with
    | true =>
      obtain ⟨tok, heq⟩ := get_access_token_hit now s net hfp
      rw [heq]
      intro _
      exact hinv
    | false =>
      rw [get_access_token_not_fast now s net hfp]
      exact refreshPath_invariant now s net hinv
  · cases code with
    | none => intro _; exact hinv
    | some c =>
      cases net with
      | transportError m => intro _; exact hinv
      | httpError a b body =>
        cases body with
        | notJson => intro _; exact hinv
        | nonObject => intro h; simp [callbackRoute] at h
        | object d => intro _; exact hinv
      | success body =>
        cases body with
        | notJson => intro _; exact hinv
        | nonObject => intro h; simp [callbackRoute] at h
        | object d =>
          unfold callbackRoute
          dsimp only
          split
          · intro _; exact hinv
          · split
            · intro _; rfl
            · intro h; simp at h

theorem C8_witness :
    authInvariant { refresh_token := some (.jstr "R"),
                    others := [("cart_items", "two shirts")] } = true ∧
    (get_access_token 100
        { refresh_token := some (.jstr "R"),
          others := [("cart_items", "two shirts")] }
        (.transportError "connection reset")).raised = none ∧
    authInvariant (get_access_token 100
        { refresh_token := some (.jstr "R"),
          others := [("cart_items", "two shirts")] }
        (.transportError "connection reset")).session = true ∧
    (callbackRoute 100
        { refresh_token := some (.jstr "R"),
          others := [("cart_items", "two shirts")] }
        (some "auth-code")
        (.success (.object { access_token := some (.jstr "T"),
                             expires_in := some (.jnum 3600) }))).raised = none ∧
    authInvariant (callbackRoute 100
        { refresh_token := some (.jstr "R"),
          others := [("cart_items", "two shirts")] }
        (some "auth-code")
        (.success (.object { access_token := some (.jstr "T"),
                             expires_in := some (.jnum 3600) }))).session = true := by
  have h := C8_invariant_preserved_without_raise 100
    { refresh_token := some (.jstr "R"), others := [("cart_items", "two shirts")] }
    (.success (.object { access_token := some (.jstr "T"),
                         expires_in := some (.jnum 3600) }))
    (some "auth-code") rfl
  refine ⟨rfl, ?_, ?_, rfl, h.2 rfl⟩
  · rfl
  · exact (C8_invariant_preserved_without_raise 100
      { refresh_token := some (.jstr "R"), others := [("cart_items", "two shirts")] }
      (.transportError "connection reset") (some "auth-code") rfl).1 rfl

theorem refreshPath_success (now : Int) (s : Session) (d : TokenData)
    (rt tok : JsonVal) (e : Int)
    (hrt : s.refresh_token = some rt)
    (ha : d.access_token = some tok) (hat : truthy tok = true)
    (he : d.expires_in = some (.jnum e)) (het : e ≠ 0) :
    refreshPath now s (.success (.object d)) =
      { retval := retOf tok,
        session := { s with access_token := some tok,
                            refresh_token := some (d.refresh_token.getD rt),
                            expires_at := some (now + e - 60) },
        networkCall := true } := by
  unfold refreshPath
  rw [hrt]
  dsimp only
  rw [ha, he]
  have hta : truthy (pyGet (some tok)) = true := hat
  have hte : truthy (pyGet (some (JsonVal.jnum e))) = true := by
    simpa [pyGet, truthy] using het
  rw [hta, hte]
  dsimp only [pyGet]
  cases hdr : d.refresh_token <;> rfl

theorem callbackRoute_success (now : Int) (s : Session) (c : String)
    (d : TokenData) (tok : JsonVal) (e : Int)
    (ha : d.access_token = some tok) (he : d.expires_in = some (.jnum e)) :
    callbackRoute now s (some c) (.success (.object d)) =
      { redirectTo := some "products",
        flashes := [("Authentication successful!", "success")],
        session := { s with access_token := some tok,
                            refresh_token := some (pyGet d.refresh_token),
                            expires_at := some (now + e - 60) },
        networkCall := true } := by
  unfold callbackRoute
  dsimp only
  rw [ha, he]
  simp [pyGet]

/-- C9: on both success paths — `get_access_token`'s refresh and the
callback's code exchange — the stored `expires_at` is exactly
`now + expires_in - 60` (the same 60-second skew buffer on both), and
in particular `expires_in = 3600` stores a value inside
`[now + 3599 - 60, now + 3600 - 60]`. -/
theorem C9_skew_buffer_on_both_paths
    (now : Int) (s : Session) (d : TokenData)
    (rt tok : JsonVal) (e : Int) (c : String)
    (hrt : s.refresh_token = some rt)
    (hmiss : fastPathHit now s = false)
    (ha : d.access_token = some tok) (hat : truthy tok = true)
    (he : d.expires_in = some (.jnum e)) (het : e ≠ 0) :
    (get_access_token now s (.success (.object d))).session.expires_at
        = some (now + e - 60) ∧
    (callbackRoute now s (some c) (.success (.object d))).session.expires_at
        = some (now + e - 60) ∧
    (e = 3600 →
      now + 3599 - 60 ≤ now + e - 60 ∧ now + e - 60 ≤ now + 3600 - 60) := by
  refine ⟨?_, ?_, fun h => by omega⟩
  · rw [get_access_token_not_fast now s _ hmiss,
        refreshPath_success now s d rt tok e hrt ha hat he het]
  · rw [callbackRoute_success now s c d tok e ha he]

theorem C9_witness :
    (get_access_token 100
        { refresh_token := some (.jstr "R"), expires_at := some 50 }
        (.success (.object { access_token := some (.jstr "T"),
                             expires_in := some (.jnum 3600) }))).session.expires_at
        = some (100 + 3600 - 60) ∧
    (callbackRoute 100
        { refresh_token := some (.jstr "R"), expires_at := some 50 }
        (some "auth-code")
        (.success (.object { access_token := some (.jstr "T"),
                             expires_in := some (.jnum 3600) }))).session.expires_at
        = some (100 + 3600 - 60) ∧
    ((3600 : Int) = 3600 →
      (100 : Int) + 3599 - 60 ≤ 100 + 3600 - 60 ∧
        (100 : Int) + 3600 - 60 ≤ 100 + 3600 - 60) :=
  C9_skew_buffer_on_both_paths 100
    { refresh_token := some (.jstr "R"), expires_at := some 50 }
    { access_token := some (.jstr "T"), expires_in := some (.jnum 3600) }
    (.jstr "R") (.jstr "T") 3600 "auth-code"
    rfl (by decide) rfl (by decide) rfl (by decide)

/-- C10: when the callback exchange succeeds on a 2xx object body that
carries `access_token` and `expires_in` but no `refresh_token` key,
the session's `refresh_token` key is nevertheless set — to the null
value — so it is present afterwards; and a later `get_access_token`
call on that session with the access token stale issues the network
refresh (using that null refresh token) instead of returning `None`
without a call. -/
theorem C10_null_refresh_token_round_trip
    (now later : Int) (s : Session) (d : TokenData)
    (tok : JsonVal) (e : Int) (c : String) (net : HttpOutcome)
    (ha : d.access_token = some tok) (he : d.expires_in = some (.jnum e))
    (hnort : d.refresh_token = none)
    (hstale : now + e - 60 ≤ later) :
    (callbackRoute now s (some c) (.success (.object d))).session.refresh_token
      = some .jnull ∧
    (get_access_token later
        (callbackRoute now s (some c) (.success (.object d))).session
        net).networkCall = true := by
  rw [callbackRoute_success now s c d tok e ha he]
  dsimp only
  rw [hnort]
  refine ⟨rfl, ?_⟩
  have hmiss : fastPathHit later
      { s with access_token := some tok,
               refresh_token := some (pyGet none),
               expires_at := some (now + e - 60) } = false := by
    unfold fastPathHit
    dsimp only
    simp only [decide_eq_false_iff_not]
    omega
  rw [get_access_token_not_fast _ _ _ hmiss]
  exact refreshPath_networkCall _ _ _ (pyGet none) rfl

theorem C10_witness :
    (callbackRoute 100 {} (some "auth-code")
        (.success (.object { access_token := some (.jstr "T"),
                             expires_in := some (.jnum 3600) }))).session.refresh_token
      = some .jnull ∧
    (get_access_token 4000
        (callbackRoute 100 {} (some "auth-code")
          (.success (.object { access_token := some (.jstr "T"),
                               expires_in := some (.jnum 3600) }))).session
        (.transportError "connection reset")).networkCall = true :=
  C10_null_refresh_token_round_trip 100 4000 {}
    { access_token := some (.jstr "T"), expires_in := some (.jnum 3600) }
    (.jstr "T") 3600 "auth-code" (.transportError "connection reset")
    rfl rfl rfl (by decide)
